import Mathlib

/-!
Verification of the content-derivation pipeline of this repository against its
natural-language specification.  The Python sources under `src/` are embedded
shallowly: pure functions become Lean functions, Python dicts become structures
or association lists, machine arithmetic is `Nat`/`Int`/`ℚ` with the rounding
semantics made explicit.  Claims are stated and settled as theorems below the
definitions.
-/

/-! ## Generic string helpers (Python substring / regex-fragment semantics) -/

/-- `listPrefixOf ns l` : `ns` is a prefix of `l` (Boolean). -/
def listPrefixOf : List Char → List Char → Bool
  | [], _ => true
  | _ :: _, [] => false
  | a :: as, b :: bs => a == b && listPrefixOf as bs

/-- `listInfixOf ns l` : `ns` occurs contiguously inside `l` (Boolean). -/
def listInfixOf (ns : List Char) : List Char → Bool
  | [] => ns.isEmpty
  | c :: cs => listPrefixOf ns (c :: cs) || listInfixOf ns cs

/-- Python `needle in hay` on strings. -/
def strContains (hay needle : String) : Bool :=
  listInfixOf needle.data hay.data

/-- ASCII lower-casing of one character. -/
def asciiLower (c : Char) : Char :=
  if 65 ≤ c.toNat && c.toNat ≤ 90 then Char.ofNat (c.toNat + 32) else c

/-- Python `str.lower()` (ASCII model; every string the claims touch is ASCII
apart from `₹`/`—`, which `lower` leaves unchanged). -/
def pyLower (s : String) : String := String.mk (s.data.map asciiLower)

def isSpaceChar (c : Char) : Bool := c == ' ' || c == '\t' || c == '\n' || c == '\r'

/-- Python `str.strip()` (ASCII whitespace model). -/
def pyStrip (s : String) : String :=
  String.mk (((s.data.dropWhile isSpaceChar).reverse.dropWhile isSpaceChar).reverse)

/-- `", ".join(values)` used by `_safe_join` on list-valued fields. -/
def joinComma (l : List String) : String := String.intercalate ", " l

/-- Maximal digit runs of a character list, left to right
(`acc` is the reversed current run). Models `re.findall(r"\d+", ...)` runs. -/
def digitRunsGo : List Char → List Char → List (List Char)
  | acc, [] => if acc.isEmpty then [] else [acc.reverse]
  | acc, c :: cs =>
    if c.isDigit then digitRunsGo (c :: acc) cs
    else if acc.isEmpty then digitRunsGo [] cs
    else acc.reverse :: digitRunsGo [] cs

/-- Python `re.findall(r"\d{2,}", s)`: the maximal digit runs of length ≥ 2. -/
def findTwoPlusRuns (s : String) : List String :=
  ((digitRunsGo [] s.data).filter (fun r => 2 ≤ r.length)).map String.mk

/-- First maximal run of characters satisfying `p` (Python `re.search` of a
character-class `+` pattern, returning the matched text). -/
def firstRunOf (p : Char → Bool) : List Char → Option (List Char)
  | [] => none
  | c :: cs => if p c then some (c :: cs.takeWhile p) else firstRunOf p cs

/-- Python `re.search(r"(\d+%)", s)`: the first (maximal) digit run immediately
followed by `%`, returned together with the `%`.  `acc` is the reversed digit
run accumulated so far. -/
def firstPercentGo : List Char → List Char → Option String
  | _, [] => none
  | acc, c :: cs =>
    if c.isDigit then firstPercentGo (c :: acc) cs
    else if c == '%' && !acc.isEmpty then some (String.mk (acc.reverse ++ ['%']))
    else firstPercentGo [] cs

def firstPercentIn (s : String) : Option String := firstPercentGo [] s.data

/-- Worker for deleting every occurrence of the pattern `p :: ps`: `skip`
counts pattern characters still to be consumed after a match. -/
def removeRunGo (p : Char) (ps : List Char) : Nat → List Char → List Char
  | _, [] => []
  | Nat.succ k, _ :: cs => removeRunGo p ps k cs
  | 0, c :: cs =>
    if listPrefixOf (p :: ps) (c :: cs) then removeRunGo p ps ps.length cs
    else c :: removeRunGo p ps 0 cs

/-- Python `hay.replace(pat, "")` for a non-empty pattern `p :: ps`:
delete every (leftmost, non-overlapping) occurrence. -/
def removeRun (p : Char) (ps : List Char) (l : List Char) : List Char :=
  removeRunGo p ps 0 l

/-- Python `s.replace(pat, "")` (all occurrences removed). -/
def pyReplaceDel (s pat : String) : String :=
  match pat.data with
  | [] => s
  | p :: ps => String.mk (removeRun p ps s.data)

/-- Python regex word character (`\w`, ASCII model). -/
def wordChar (c : Char) : Bool := c.isAlphanum || c == '_'

def boundaryOkB : Option Char → Bool
  | some c => !wordChar c
  | none => true

/-- Does the word `w` match at the head of `l`, given the previous character
`pre` (`none` = start of string)?  Models `\b w \b` at one position for an
all-letter `w`. -/
def matchWordHere (w l : List Char) (pre : Option Char) : Bool :=
  boundaryOkB pre && listPrefixOf w l && boundaryOkB (l.drop w.length).head?

def containsWordGo (w : List Char) : Option Char → List Char → Bool
  | pre, [] => matchWordHere w [] pre
  | pre, c :: cs => matchWordHere w (c :: cs) pre || containsWordGo w (some c) cs

/-- Python `re.search(r"\b" + needle + r"\b", hay)` for a letters-only needle. -/
def containsWordB (hay needle : String) : Bool :=
  containsWordGo needle.data none hay.data

/-! ## Python `round` (banker's rounding) on exact rationals -/

/-- Python `round(q)` to an integer: round half to even.  The Python code
applies `round` to floats; every value the claims evaluate is exactly
representable or far from a tie, so the exact-rational model agrees. -/
def pyRoundQ (q : ℚ) : Int :=
  let f := ⌊q⌋
  if q - f < 1/2 then f
  else if (1/2 : ℚ) < q - f then f + 1
  else if f % 2 = 0 then f else f + 1

/-- Python `round(q, k)` with `k` decimal digits, as a rational. -/
def pyRoundScaled (pow10 : ℕ) (q : ℚ) : ℚ :=
  ((pyRoundQ (q * pow10) : ℚ)) / pow10

/-- Python `int(round(p * (a/b)))` with the multiplier as an exact fraction
`(a, b)` (`b > 0`), in integer arithmetic: round half to even. -/
def pyRoundMul (p : Int) (m : Int × Int) : Int :=
  let t := p * m.1
  let f := Int.fdiv t m.2
  let r2 := 2 * (t - f * m.2)
  if r2 < m.2 then f
  else if r2 > m.2 then f + 1
  else if f % 2 = 0 then f else f + 1

/-! ## MD5 (used by `compare_block._deterministic_variant` via `hashlib.md5`) -/

def md5K : List Nat := [
  3614090360, 3905402710, 606105819, 3250441966, 4118548399, 1200080426, 2821735955, 4249261313,
  1770035416, 2336552879, 4294925233, 2304563134, 1804603682, 4254626195, 2792965006, 1236535329,
  4129170786, 3225465664, 643717713, 3921069994, 3593408605, 38016083, 3634488961, 3889429448,
  568446438, 3275163606, 4107603335, 1163531501, 2850285829, 4243563512, 1735328473, 2368359562,
  4294588738, 2272392833, 1839030562, 4259657740, 2763975236, 1272893353, 4139469664, 3200236656,
  681279174, 3936430074, 3572445317, 76029189, 3654602809, 3873151461, 530742520, 3299628645,
  4096336452, 1126891415, 2878612391, 4237533241, 1700485571, 2399980690, 4293915773, 2240044497,
  1873313359, 4264355552, 2734768916, 1309151649, 4149444226, 3174756917, 718787259, 3951481745]

def md5S : List Nat := [
  7, 12, 17, 22, 7, 12, 17, 22, 7, 12, 17, 22, 7, 12, 17, 22,
  5, 9, 14, 20, 5, 9, 14, 20, 5, 9, 14, 20, 5, 9, 14, 20,
  4, 11, 16, 23, 4, 11, 16, 23, 4, 11, 16, 23, 4, 11, 16, 23,
  6, 10, 15, 21, 6, 10, 15, 21, 6, 10, 15, 21, 6, 10, 15, 21]

def M32 : Nat := 4294967296

def rotl32 (x c : Nat) : Nat := (x % 2 ^ (32 - c)) * 2 ^ c + x / 2 ^ (32 - c)

def notB32 (x : Nat) : Nat := 4294967295 ^^^ x

def md5F (b c d : Nat) : Nat := (b &&& c) ||| (notB32 b &&& d)
def md5G (b c d : Nat) : Nat := (d &&& b) ||| (notB32 d &&& c)
def md5H (b c d : Nat) : Nat := b ^^^ c ^^^ d
def md5I (b c d : Nat) : Nat := c ^^^ (b ||| notB32 d)

def md5Step (Mw : List Nat) (st : Nat × Nat × Nat × Nat) (i : Nat) : Nat × Nat × Nat × Nat :=
  let a := st.1; let b := st.2.1; let c := st.2.2.1; let d := st.2.2.2
  let fg : Nat × Nat :=
    if i < 16 then (md5F b c d, i)
    else if i < 32 then (md5G b c d, (5 * i + 1) % 16)
    else if i < 48 then (md5H b c d, (3 * i + 5) % 16)
    else (md5I b c d, (7 * i) % 16)
  let tmp := (a + fg.1 + md5K.getD i 0 + Mw.getD fg.2 0) % M32
  (d, (b + rotl32 tmp (md5S.getD i 0)) % M32, b, c)

def md5Block (st : Nat × Nat × Nat × Nat) (Mw : List Nat) : Nat × Nat × Nat × Nat :=
  let r := (List.range 64).foldl (md5Step Mw) st
  ((st.1 + r.1) % M32, (st.2.1 + r.2.1) % M32, (st.2.2.1 + r.2.2.1) % M32,
   (st.2.2.2 + r.2.2.2) % M32)

/-- UTF-8 bytes of one character (Python `str.encode("utf8")`). -/
def charUtf8 (c : Char) : List Nat :=
  let n := c.toNat
  if n < 128 then [n]
  else if n < 2048 then [192 + n / 64, 128 + n % 64]
  else if n < 65536 then [224 + n / 4096, 128 + n / 64 % 64, 128 + n % 64]
  else [240 + n / 262144, 128 + n / 4096 % 64, 128 + n / 64 % 64, 128 + n % 64]

def utf8Bytes (s : String) : List Nat := (s.data.map charUtf8).flatten

/-- MD5 padding: `0x80`, zeros to 56 mod 64, then the 64-bit little-endian bit length. -/
def md5Pad (m : List Nat) : List Nat :=
  let len := m.length
  let padLen := (56 + 64 - (len + 1) % 64) % 64
  m ++ [128] ++ List.replicate padLen 0 ++ (List.range 8).map (fun i => len * 8 / 2 ^ (8 * i) % 256)

def bytesToWords : List Nat → List Nat
  | b0 :: b1 :: b2 :: b3 :: rest =>
      (b0 + 256 * b1 + 65536 * b2 + 16777216 * b3) :: bytesToWords rest
  | _ => []

/-- Split into 64-byte chunks (`fuel` bounds the recursion by the length). -/
def chunks64Go : Nat → List Nat → List (List Nat)
  | _, [] => []
  | 0, _ :: _ => []
  | Nat.succ fuel, x :: xs => (x :: xs).take 64 :: chunks64Go fuel ((x :: xs).drop 64)

def chunks64 (l : List Nat) : List (List Nat) := chunks64Go l.length l

def md5Words (s : String) : Nat × Nat × Nat × Nat :=
  ((chunks64 (md5Pad (utf8Bytes s))).map bytesToWords).foldl md5Block
    (1732584193, 4023233417, 2562383102, 271733878)

def hexDigitChar (n : Nat) : Char :=
  if n < 10 then Char.ofNat (48 + n) else Char.ofNat (87 + n)

def byteHex (n : Nat) : List Char := [hexDigitChar (n / 16), hexDigitChar (n % 16)]

/-- The eight hex characters of one 32-bit word, little-endian byte order
(how `hexdigest` prints each state word). -/
def wordHexLE (w : Nat) : List Char :=
  byteHex (w % 256) ++ byteHex (w / 256 % 256) ++ byteHex (w / 65536 % 256) ++
    byteHex (w / 16777216 % 256)

/-- `hashlib.md5(s.encode("utf8")).hexdigest()`. -/
def md5hex (s : String) : String :=
  let r := md5Words s
  String.mk (wordHexLE r.1 ++ wordHexLE r.2.1 ++ wordHexLE r.2.2.1 ++ wordHexLE r.2.2.2)

def hexCharVal (c : Char) : Nat := if c.isDigit then c.toNat - 48 else c.toNat - 87

/-- `int(hashlib.md5(base_id.encode("utf8")).hexdigest()[:8], 16)` from
`compare_block._deterministic_variant`. -/
def md5num (s : String) : Nat :=
  ((md5hex s).data.take 8).foldl (fun acc c => acc * 16 + hexCharVal c) 0

/-! ## Canonical record builder (`src/agents/data_parser.py`)

Raw input is a string-keyed mapping with heterogeneous values.  The model
covers the value shapes the parser distinguishes: Python `None`, strings,
ints and lists (floats and nested dicts are not distinguished by any claim).
Python truthiness drives the `or`-alias chains. -/

/-- An element of a list-valued raw field.  The parser only ever asks
`isinstance(s, str)` of elements, so non-string elements are collapsed to
their truthiness-relevant shapes. -/
inductive RawLeaf where
  | lNone
  | lStr (s : String)
  | lInt (n : Int)
deriving DecidableEq, Repr

inductive RawVal where
  | vNone
  | vStr (s : String)
  | vInt (n : Int)
  | vList (l : List RawLeaf)
deriving DecidableEq, Repr

abbrev RawMap := List (String × RawVal)

/-- Python `raw.get(k)` (absent key gives `None`). -/
def rawGet (r : RawMap) (k : String) : RawVal :=
  match r.find? (fun kv => kv.1 == k) with
  | some kv => kv.2
  | none => RawVal.vNone

/-- Python `k in raw`. -/
def rawHasKey (r : RawMap) (k : String) : Bool := r.any (fun kv => kv.1 == k)

/-- Python truthiness of a raw value. -/
def truthy : RawVal → Bool
  | .vNone => false
  | .vStr s => !(s == "")
  | .vInt n => !(n == 0)
  | .vList l => !l.isEmpty

/-- Python `a or b`. -/
def pyOr (a b : RawVal) : RawVal := if truthy a then a else b

/-- The validated product record (`ProductModel` in `data_parser.py`). -/
structure ProductModel where
  id : String
  name : String
  concentration : Option String
  skin_type : List String
  ingredients : List String
  benefits : List String
  usage : Option String
  side_effects : Option String
  price_inr : Option Int
  raw : RawMap
deriving DecidableEq, Repr

/-- pydantic-v1 validation of a `str` field: strings pass, ints are coerced
with `str()`, `None` and lists are rejected. -/
def validateStr : RawVal → Except String String
  | .vStr s => .ok s
  | .vInt n => .ok (toString n)
  | .vNone => .error "none is not an allowed value"
  | .vList _ => .error "str type expected"

/-- pydantic-v1 validation of an `Optional[str]` field. -/
def validateOptStr : RawVal → Except String (Option String)
  | .vNone => .ok none
  | .vStr s => .ok (some s)
  | .vInt n => .ok (some (toString n))
  | .vList _ => .error "str type expected"

/-- `re.split(r"[;,]", v)` then strip, dropping empty segments:
`[s.strip() for s in re.split(r"[;,]", v) if s.strip()]`. -/
def splitListField (s : String) : List String :=
  ((s.data.splitOnP (fun c => c == ';' || c == ',')).map
    (fun seg => pyStrip (String.mk seg))).filter (fun t => !(t == ""))

/-- The shared `pre=True` validator of `skin_type` / `ingredients` / `benefits`:
`None` → `[]`; a list keeps its truthy string elements stripped; a string is
split on `;`/`,`; anything else raises `ValueError`. -/
def validateListField (fieldLabel : String) : RawVal → Except String (List String)
  | .vNone => .ok []
  | .vList l => .ok (l.filterMap (fun x =>
      match x with
      | .lStr s => if s == "" then none else some (pyStrip s)
      | _ => none))
  | .vStr s => .ok (splitListField s)
  | .vInt _ => .error (fieldLabel ++ " must be a list or string")

/-- `PRICE_RE = re.compile(r"[\d,]+")` search followed by comma removal and
`int(...)`; an all-comma match makes `int("")` raise, caught to `None`. -/
def priceFromText (s : String) : Option Int :=
  match firstRunOf (fun c => c.isDigit || c == ',') s.data with
  | none => none
  | some run =>
    let ds := run.filter (fun c => !(c == ','))
    if ds.isEmpty then none
    else some ((ds.foldl (fun acc c => acc * 10 + (c.toNat - 48)) 0 : Nat) : Int)

/-- The `price_inr` validator (`parse_price`).  It runs with `always=True`;
`values.get("raw")` is empty there because the `raw` field is declared after
`price_inr`, so pydantic has not validated it yet — the in-validator fallback
to `raw.get("price") / raw.get("price_inr") / raw.get("Price")` never finds
anything and `price_field` is just `v`. -/
def parse_price : RawVal → Option Int
  | .vInt n => some n
  | .vNone => none
  | .vStr s =>
      priceFromText (pyReplaceDel (pyReplaceDel (pyReplaceDel s "₹") "Rs.") "INR")
  | .vList _ => none

/-- The alias chain for `name` in `parse_raw_product`. -/
def nameArg (raw : RawMap) : RawVal :=
  pyOr (rawGet raw "product_name") (pyOr (rawGet raw "Product Name")
    (pyOr (rawGet raw "name") (rawGet raw "product")))

def concArg (raw : RawMap) : RawVal :=
  pyOr (rawGet raw "concentration") (rawGet raw "Concentration")

def skinArg (raw : RawMap) : RawVal :=
  pyOr (rawGet raw "skin_type") (rawGet raw "Skin Type")

def ingArg (raw : RawMap) : RawVal :=
  pyOr (rawGet raw "key_ingredients") (pyOr (rawGet raw "Key Ingredients")
    (rawGet raw "ingredients"))

def benArg (raw : RawMap) : RawVal :=
  pyOr (rawGet raw "benefits") (rawGet raw "Benefits")

def useArg (raw : RawMap) : RawVal :=
  pyOr (rawGet raw "how_to_use") (pyOr (rawGet raw "How to Use")
    (rawGet raw "usage"))

def seArg (raw : RawMap) : RawVal :=
  pyOr (rawGet raw "side_effects") (rawGet raw "Side Effects")

/-- `raw.get("id", "product_001")`. -/
def idArg (raw : RawMap) : RawVal :=
  if rawHasKey raw "id" then rawGet raw "id" else .vStr "product_001"

/-- The value handed to the `price_inr` validator: `parse_raw_product` sets it
from key `"price"`, then overrides from key `"price_inr"`; with neither key
the field is missing and the `always=True` validator receives `None`. -/
def priceArg (raw : RawMap) : RawVal :=
  if rawHasKey raw "price_inr" then rawGet raw "price_inr"
  else if rawHasKey raw "price" then rawGet raw "price"
  else .vNone

/-- `parse_raw_product(raw)`: alias resolution then `ProductModel(**pm_input)`.
pydantic validates every field and raises `ValidationError` exactly when some
field validator fails; the model reports the first failing field (in pydantic's
declaration order), which raises if and only if the collect-all-errors
behaviour does. -/
def parse_raw_product (raw : RawMap) : Except String ProductModel :=
  match validateStr (idArg raw), validateStr (nameArg raw), validateOptStr (concArg raw),
        validateListField "skin_type" (skinArg raw),
        validateListField "ingredients" (ingArg raw),
        validateListField "benefits" (benArg raw),
        validateOptStr (useArg raw), validateOptStr (seArg raw) with
  | .ok idv, .ok namev, .ok concv, .ok skinv, .ok ingv, .ok benv, .ok usev, .ok sev =>
      .ok { id := idv, name := namev, concentration := concv, skin_type := skinv,
            ingredients := ingv, benefits := benv, usage := usev, side_effects := sev,
            price_inr := parse_price (priceArg raw), raw := raw }
  | .error e, _, _, _, _, _, _, _ => .error e
  | _, .error e, _, _, _, _, _, _ => .error e
  | _, _, .error e, _, _, _, _, _ => .error e
  | _, _, _, .error e, _, _, _, _ => .error e
  | _, _, _, _, .error e, _, _, _ => .error e
  | _, _, _, _, _, .error e, _, _ => .error e
  | _, _, _, _, _, _, .error e, _ => .error e
  | _, _, _, _, _, _, _, .error e => .error e

def exOk {ε α : Type} : Except ε α → Bool
  | .ok _ => true
  | .error _ => false

/-- Shape of a value accepted by `validateStr` (a required `str` field). -/
def strShapeOk : RawVal → Bool
  | .vStr _ => true
  | .vInt _ => true
  | _ => false

/-- Shape accepted by `validateOptStr`. -/
def optStrShapeOk : RawVal → Bool
  | .vList _ => false
  | _ => true

/-- Shape accepted by `validateListField`. -/
def listShapeOk : RawVal → Bool
  | .vInt _ => false
  | _ => true

/-- All consulted fields of the raw mapping have validator-accepted shapes. -/
def wellShapedB (raw : RawMap) : Bool :=
  strShapeOk (idArg raw) && strShapeOk (nameArg raw) && optStrShapeOk (concArg raw) &&
  listShapeOk (skinArg raw) && listShapeOk (ingArg raw) && listShapeOk (benArg raw) &&
  optStrShapeOk (useArg raw) && optStrShapeOk (seArg raw)

/-! ## Question classifier (`src/logic_blocks/faq_answer_block.py`) -/

def usageKeys : List String :=
  ["how do i use", "how to use", "how should i use", "usage", "apply", "apply it",
   "steps", "frequency"]

def storageCompareKeys : List String :=
  ["store", "storage", "shelf life", "expire", "compare", "comparison", "difference"]

def valueKeys : List String :=
  ["price", "cost", "buy", "purchase", "discount", "value for money",
   "where can i get", "where can i buy"]

def ingredientKeys : List String :=
  ["ingredient", "ingredients", "what is in", "retinol", "acid", "aha", "bha",
   "compatible", "use with", "hyaluronic"]

def safetyKeys : List String :=
  ["side effect", "sensitive skin", "irritation", "skin type", "suitable for",
   "oily skin", "dry skin", "combination skin", "patch test"]

def overviewKeys : List String :=
  ["what is", "who is it for", "concentration", "mean"]

/-- `any(p in ql for p in keys)`. -/
def anyKey (keys : List String) (ql : String) : Bool :=
  keys.any (fun p => strContains ql p)

/-- `classify_question(q)`: ordered keyword cascade, first match wins. -/
def classify_question (q : String) : String :=
  let ql := pyLower q
  if anyKey usageKeys ql then "usage"
  else if anyKey storageCompareKeys ql then "other"
  else if anyKey valueKeys ql then "value"
  else if anyKey ingredientKeys ql then "ingredients"
  else if anyKey safetyKeys ql then "safety"
  else if anyKey overviewKeys ql then "overview"
  else "other"

/-! ## Deterministic answer generator (`generate_answer`)

Answers are modelled as fragment lists: `fx` marks a fixed string literal from
the source code, `fv` marks an interpolated record-field value.  Rendering the
fragments in order concatenates to exactly the Python f-string; the fragment
tags are what the answer-provenance claim quantifies over. -/

inductive Frag where
  | fx (s : String)
  | fv (s : String)
deriving DecidableEq, Repr

def fragText : Frag → String
  | .fx s => s
  | .fv s => s

def renderFrags (l : List Frag) : String := (l.map fragText).foldl (· ++ ·) ""

/-- Python truthiness of an optional string field. -/
def optTruthy : Option String → Bool
  | some s => !(s == "")
  | none => false

def optVal (o : Option String) : String := o.getD ""

/-- The decimal text of the record price (used by `f"₹{price}"`). -/
def priceText (p : ProductModel) : String :=
  match p.price_inr with
  | some n => toString n
  | none => ""

/-- Python truthiness of `price` in `generate_answer` (`if price:`). -/
def priceTruthy (p : ProductModel) : Bool :=
  match p.price_inr with
  | some n => !(n == 0)
  | none => false

def compatKeys : List String :=
  ["retinol", "acid", "aha", "bha", "hyaluronic", "compatible", "use with"]

def suitabilityKeys : List String :=
  ["skin type", "suitable for", "oily", "dry", "combination"]

/-- `generate_answer(category, q, product)` at the fragment level.  Each branch
mirrors the corresponding return statement of the source. -/
def generateAnswerFrags (category q : String) (p : ProductModel) : List Frag :=
  if category == "overview" then
    if strContains (pyLower q) "concentration" || strContains (pyLower q) "mean" then
      if optTruthy p.concentration then
        [.fv (optVal p.concentration),
         .fx " refers to the strength of the active ingredient in the formula. It indicates how potent the Vitamin C content is compared to lower percentages."]
      else [.fx "The concentration meaning is not provided in the product details."]
    else
      ([.fv p.name, .fx "."] ++
       (if !p.benefits.isEmpty then
          [.fx " Key benefits include ", .fv (joinComma p.benefits), .fx "."] else []) ++
       (if optTruthy p.concentration then
          [.fx " It contains ", .fv (optVal p.concentration), .fx "."] else []))
  else if category == "usage" then
    if optTruthy p.usage then [.fv (optVal p.usage)]
    else [.fx "Usage instructions were not provided."]
  else if category == "ingredients" then
    if anyKey compatKeys (pyLower q) then
      [.fx "Compatibility with other active ingredients such as Vitamin C, retinol, hyaluronic acid, AHAs, or BHAs is not specified in the product details."]
    else if !p.ingredients.isEmpty then
      [.fx "The key ingredients include ", .fv (joinComma p.ingredients), .fx "."]
    else [.fx "Ingredient information was not provided."]
  else if category == "safety" then
    if anyKey suitabilityKeys (pyLower q) then
      if !p.skin_type.isEmpty then
        [.fx "Suitable for ", .fv (joinComma p.skin_type), .fx " skin types."]
      else [.fx "Skin-type suitability information was not provided."]
    else if optTruthy p.side_effects then [.fv (optVal p.side_effects)]
    else [.fx "Side-effect information was not provided."]
  else if category == "value" then
    if strContains (pyLower q) "price" || strContains (pyLower q) "cost" then
      if priceTruthy p then [.fx "The price is ₹", .fv (priceText p), .fx "."]
      else [.fx "Price information was not provided."]
    else if strContains (pyLower q) "value" then
      if priceTruthy p && !p.benefits.isEmpty then
        [.fx "The product offers benefits such as ", .fv (joinComma p.benefits),
         .fx ". At ₹", .fv (priceText p),
         .fx ", its value depends on individual skincare needs and expectations but is consistent with typical Vitamin C serums."]
      else if priceTruthy p then
        [.fx "At ₹", .fv (priceText p), .fx ", the value depends on your personal skincare goals."]
      else [.fx "Value assessment is not possible because the price was not provided."]
    else [.fx "Purchase information was not provided."]
  else
    if strContains (pyLower q) "store" || strContains (pyLower q) "storage" then
      [.fx "Storage instructions were not provided."]
    else if strContains (pyLower q) "shelf life" || strContains (pyLower q) "expire" then
      [.fx "Shelf-life information was not provided."]
    else if strContains (pyLower q) "compare" || strContains (pyLower q) "difference" then
      [.fx "Comparison information was not provided."]
    else [.fx "This information was not provided in the product details."]

/-- `generate_answer` as the rendered string. -/
def generate_answer (category q : String) (p : ProductModel) : String :=
  renderFrags (generateAnswerFrags category q p)

/-! ## FAQ `run_block` (deterministic mode, `llm_adapter=None`) -/

structure QItem where
  text : Option String
  question : Option String
deriving DecidableEq, Repr

/-- `q.get("text") or q.get("question") or ""`. -/
def qEffText (q : QItem) : String :=
  match q.text with
  | some t => if t == "" then (match q.question with
      | some s => if s == "" then "" else s
      | none => "") else t
  | none => (match q.question with
      | some s => if s == "" then "" else s
      | none => "")

structure FaqItem where
  question : String
  answer : String
  category : String
deriving DecidableEq, Repr

structure FaqOut where
  faq_items : List FaqItem
  llm_used : Bool
deriving DecidableEq, Repr

/-- One loop iteration of `run_block`: skip empty question text, otherwise
classify, answer, and append. -/
def faqStep (p : ProductModel) (acc : List FaqItem) (q : QItem) : List FaqItem :=
  let qt := qEffText q
  if qt == "" then acc
  else
    acc ++ [{ question := qt,
              answer := generate_answer (classify_question qt) qt p,
              category := classify_question qt }]

/-- The item built for one accepted question. -/
def faqMk (p : ProductModel) (q : QItem) : FaqItem :=
  { question := qEffText q,
    answer := generate_answer (classify_question (qEffText q)) (qEffText q) p,
    category := classify_question (qEffText q) }

/-- `faq_answer_block.run_block(product_model, questions)` without a
paraphrase adapter. -/
def faq_run_block (p : ProductModel) (questions : List QItem) : FaqOut :=
  { faq_items := questions.foldl (faqStep p) [], llm_used := false }

/-! ## Paraphrase safety gate (`src/agents/llm_adapter.py`, `src/agents/ollama_adapter.py`) -/

/-- `BLACKLIST_PATTERNS`, identical in both adapters.  Each is searched with
word boundaries in the *lowercased* candidate text; the patterns themselves
are matched case-sensitively, exactly as `re.search` does. -/
def blacklistWords : List String :=
  ["clinical", "study", "proven", "FDA", "dermatologist", "guarantee", "guaranteed"]

/-- `_contains_blacklisted(text)`: lowercase, then search each `\b…\b` pattern. -/
def containsBlacklisted (text : String) : Bool :=
  blacklistWords.any (fun w => containsWordB (pyLower text) w)

/-- The price sub-check shared by both `_validate_paraphrase` functions:
with a truthy record price, a candidate containing any 2+-digit run (commas
removed) must contain `str(orig_price)` as a substring. -/
def priceGateFails (paraphrase : String) (pf : ProductModel) : Bool :=
  match pf.price_inr with
  | some n =>
    if n == 0 then false
    else
      !(findTwoPlusRuns (pyReplaceDel paraphrase ",")).isEmpty &&
        !(strContains paraphrase (toString n))
  | none => false

/-- The percentage sub-check shared by both validators:
`str(product_fields.get("concentration") or "")` is searched for the first
`\d+%`, likewise the candidate; a candidate percentage differing from the
record's, or present when the record has none, fails. -/
def percentGateFails (paraphrase : String) (pf : ProductModel) : Bool :=
  let conctext := match pf.concentration with
    | some s => if s == "" then "" else s
    | none => ""
  match firstPercentIn paraphrase, firstPercentIn conctext with
  | some pp, some op => !(pp == op)
  | some _, none => true
  | none, _ => false

/-- `llm_adapter._validate_paraphrase(original, paraphrase, product_fields)`. -/
def validate_paraphrase_llm (original paraphrase : String) (pf : ProductModel) : Bool :=
  if paraphrase == "" then false
  else if containsBlacklisted paraphrase then false
  else if priceGateFails paraphrase pf then false
  else if percentGateFails paraphrase pf then false
  else if paraphrase.length > max 400 (original.length * 3) then false
  else true

/-- `ollama_adapter._validate_paraphrase(original, paraphrase, product_fields)`:
same checks with a trimmed-emptiness test and a laxer length bound. -/
def validate_paraphrase_ollama (original paraphrase : String) (pf : ProductModel) : Bool :=
  if pyStrip paraphrase == "" then false
  else if containsBlacklisted paraphrase then false
  else if priceGateFails paraphrase pf then false
  else if percentGateFails paraphrase pf then false
  else if paraphrase.length > max 600 (original.length * 4) then false
  else true

/-! ## Compare block (`src/logic_blocks/compare_block.py`)

The input is the product dict produced by `ProductModel.dict()`.  The carried
raw mapping is modelled through the only key `run_block` reads from it:
`raw.get("product_b") or raw.get("productB")`, i.e. an optional explicit
comparator dict (`none` when neither key holds a truthy dict). -/

structure MetaD where
  generated : Bool
  variant_reason : String
deriving DecidableEq, Repr

/-- A comparator dict (`product_b`): every field optional, a missing key and a
`None` value being indistinguishable to `dict.get`. -/
structure BDict where
  id : Option String
  name : Option String
  concentration : Option String
  skin_type : Option (List String)
  ingredients : Option (List String)
  benefits : Option (List String)
  usage : Option String
  side_effects : Option String
  price_inr : Option Int
  metadata : Option MetaD
deriving DecidableEq, Repr

/-- The source product dict handed to `compare_block.run_block`. -/
structure ProductD where
  id : String
  name : String
  concentration : Option String
  skin_type : List String
  ingredients : List String
  benefits : List String
  usage : Option String
  side_effects : Option String
  price_inr : Option Int
  rawComparator : Option BDict
deriving DecidableEq, Repr

def ingredient_swaps : List (List String) :=
  [["Glycerin", "Niacinamide"], ["Squalane", "Glycerin"],
   ["Panthenol", "Glycerin"], ["Betaine", "Urea"]]

def benefit_variants : List (List String) :=
  [["Hydration", "Soothing"], ["Anti-Aging", "Firming"],
   ["Brightening", "Even Tone"], ["Hydration", "Barrier Repair"]]

def concentration_options : List String :=
  ["5% Vitamin C", "10% Vitamin C", "15% Vitamin C"]

def skin_type_variants : List (List String) :=
  [["Dry", "Sensitive"], ["Normal", "Dry"], ["Oily", "Combination"], ["All Skin Types"]]

/-- `price_mults = [0.8, 1.1, 1.25, 1.5]` as exact fractions.  The Python
floats of these literals differ from the fractions by < 2⁻⁵², and
`round(price * mult)` agrees with the exact-fraction round-half-even for the
integer prices at stake (ties arise only at exactly representable `x.5`). -/
def price_mults : List (Int × Int) := [(4, 5), (11, 10), (5, 4), (3, 2)]

/-- `_deterministic_variant(product_a)`. -/
def deterministic_variant (a : ProductD) : BDict :=
  let num := md5num a.id
  let idx1 := num % ingredient_swaps.length
  let idx2 := (num >>> 3) % benefit_variants.length
  let idx3 := (num >>> 6) % concentration_options.length
  let idx4 := (num >>> 9) % skin_type_variants.length
  let idx5 := (num >>> 12) % price_mults.length
  let base_ings := a.ingredients
  let base_bens := a.benefits
  let shared_seed := base_ings.take 1
  let swap_choice := ingredient_swaps.getD idx1 []
  let new_ings := shared_seed ++ swap_choice.filter
    (fun x => !((shared_seed.map pyLower).contains (pyLower x)))
  let shared_ben_seed := base_bens.take 1
  let new_bens := shared_ben_seed ++ (benefit_variants.getD idx2 []).filter
    (fun b => !((shared_ben_seed.map pyLower).contains (pyLower b)))
  let price_a : Int := a.price_inr.getD 0
  let mult := price_mults.getD idx5 (0, 1)
  let new_price : Option Int :=
    if price_a == 0 then none else some (pyRoundMul price_a mult)
  let md : MetaD :=
    { generated := true,
      variant_reason := "swap_idx=" ++ toString idx1 ++ ",ben_idx=" ++ toString idx2 ++
        ",conc_idx=" ++ toString idx3 ++ ",skin_idx=" ++ toString idx4 ++
        ",price_idx=" ++ toString idx5 }
  { id := some (a.id ++ "_variant_" ++ toString idx1 ++ toString idx2),
    name := some (a.name ++ " — Variant " ++ toString idx1 ++ toString idx2),
    ingredients := some new_ings,
    benefits := some new_bens,
    concentration := some (concentration_options.getD idx3 ""),
    skin_type := some (skin_type_variants.getD idx4 []),
    usage := a.usage,
    side_effects := a.side_effects,
    price_inr := new_price,
    metadata := some md }

/-- `_ensure_field` applied to `concentration`, `skin_type`, `usage`,
`side_effects`: copy from the source when missing/`None` on the comparator
(the source dict always carries a `skin_type` list, possibly empty). -/
def ensureFields (b : BDict) (a : ProductD) : BDict :=
  { b with
    concentration := match b.concentration with
      | some c => some c
      | none => a.concentration,
    skin_type := match b.skin_type with
      | some l => some l
      | none => some a.skin_type,
    usage := match b.usage with
      | some u => some u
      | none => a.usage,
    side_effects := match b.side_effects with
      | some u => some u
      | none => a.side_effects }

/-- Comparator resolution of `run_block`: the explicit `raw` comparator if
truthy, else the deterministic variant; then field backfill. -/
def resolvedComparator (a : ProductD) : BDict :=
  ensureFields
    (match a.rawComparator with
     | some b => b
     | none => deterministic_variant a) a

/-- `_normalize_list`: keep truthy entries, strip and lowercase. -/
def normalizeL (l : List String) : List String :=
  (l.filter (fun s => !(s == ""))).map (fun s => pyLower (pyStrip s))

/-- `len(shared) / max(1, len(set(x + y)))` — the overlap formula used for
both ingredients and benefits.  The `try/except` around it in the source can
never fire (the denominator is at least 1). -/
def overlapScore (x y : List String) : ℚ :=
  ((x.toFinset ∩ y.toFinset).card : ℚ) / ((max 1 (x ++ y).toFinset.card : ℕ) : ℚ)

/-- The fields of `run_block`'s output dict that the claims consult.  The
narrative fields (summary, pros/cons, recommendation, value indicator) are
plain string assembly over the same data and are not modelled. -/
structure CompareOut where
  product_b : BDict
  shared_ingredients : Finset String
  unique_to_a : Finset String
  unique_to_b : Finset String
  shared_benefits : Finset String
  unique_benefits_a : Finset String
  unique_benefits_b : Finset String
  ingredient_overlap : ℚ
  benefit_overlap : ℚ
  overall : ℚ
  price_a : Option ℚ
  price_b : Option ℚ
  price_diff_absolute : Option ℚ
  price_diff_percent : Option ℚ
deriving DecidableEq

/-- `compare_block.run_block(product_model)` up to and including the score and
price computations. -/
def compare_run_block (a : ProductD) : CompareOut :=
  let product_b := resolvedComparator a
  let a_ing := normalizeL a.ingredients
  let b_ing := normalizeL (product_b.ingredients.getD [])
  let a_ben := normalizeL a.benefits
  let b_ben := normalizeL (product_b.benefits.getD [])
  let ing_overlap := overlapScore a_ing b_ing
  let ben_overlap := overlapScore a_ben b_ben
  let overall := pyRoundScaled 1000 ((ing_overlap + ben_overlap) / 2)
  let price_a : Option ℚ := a.price_inr.map (fun n => (n : ℚ))
  let price_b : Option ℚ := product_b.price_inr.map (fun n => (n : ℚ))
  let pdiff : Option ℚ × Option ℚ :=
    match price_a, price_b with
    | some pa, some pb =>
      let absolute := pyRoundScaled 100 (pb - pa)
      (some absolute,
       if pa == 0 then none else some (pyRoundScaled 100 (absolute / pa * 100)))
    | _, _ => (none, none)
  { product_b := product_b,
    shared_ingredients := a_ing.toFinset ∩ b_ing.toFinset,
    unique_to_a := a_ing.toFinset \ b_ing.toFinset,
    unique_to_b := b_ing.toFinset \ a_ing.toFinset,
    shared_benefits := a_ben.toFinset ∩ b_ben.toFinset,
    unique_benefits_a := a_ben.toFinset \ b_ben.toFinset,
    unique_benefits_b := b_ben.toFinset \ a_ben.toFinset,
    ingredient_overlap := ing_overlap,
    benefit_overlap := ben_overlap,
    overall := overall,
    price_a := price_a,
    price_b := price_b,
    price_diff_absolute := pdiff.1,
    price_diff_percent := pdiff.2 }

/-! ## Helper lemmas about the parser -/

theorem validateStr_ok_shape (v : RawVal) : exOk (validateStr v) = strShapeOk v := by
  cases v <;> rfl

theorem validateOptStr_ok_shape (v : RawVal) : exOk (validateOptStr v) = optStrShapeOk v := by
  cases v <;> rfl

theorem validateListField_ok_shape (lbl : String) (v : RawVal) :
    exOk (validateListField lbl v) = listShapeOk v := by
  cases v <;> rfl

/-- `parse_raw_product` succeeds exactly on well-shaped raw mappings. -/
theorem parse_ok_eq_wellShaped (raw : RawMap) :
    exOk (parse_raw_product raw) = wellShapedB raw := by
  unfold parse_raw_product
  rw [wellShapedB, ← validateStr_ok_shape (idArg raw), ← validateStr_ok_shape (nameArg raw),
    ← validateOptStr_ok_shape (concArg raw),
    ← validateListField_ok_shape "skin_type" (skinArg raw),
    ← validateListField_ok_shape "ingredients" (ingArg raw),
    ← validateListField_ok_shape "benefits" (benArg raw),
    ← validateOptStr_ok_shape (useArg raw), ← validateOptStr_ok_shape (seArg raw)]
  split <;> simp_all [exOk]

/-- On success, the record's price is `parse_price` of the resolved raw value. -/
theorem parse_ok_price {raw : RawMap} {p : ProductModel}
    (h : parse_raw_product raw = .ok p) : p.price_inr = parse_price (priceArg raw) := by
  unfold parse_raw_product at h
  split at h <;> cases h
  rfl

/-- On success, list-shaped fields of a missing raw key come out empty. -/
theorem parse_ok_skin {raw : RawMap} {p : ProductModel}
    (h : parse_raw_product raw = .ok p) (hv : skinArg raw = RawVal.vNone) :
    p.skin_type = [] := by
  unfold parse_raw_product at h
  rw [hv] at h
  split at h <;> cases h
  simp_all [validateListField]

theorem mem_of_takeWhile {p : Char → Bool} :
    ∀ {l : List Char} {a : Char}, a ∈ l.takeWhile p → a ∈ l := by
  intro l
  induction l with
  | nil => intro a ha; simp at ha
  | cons c cs ih =>
    intro a ha
    rw [List.takeWhile_cons] at ha
    by_cases h : p c
    · rw [if_pos h] at ha
      rcases List.mem_cons.mp ha with rfl | ha
      · exact List.mem_cons_self _ _
      · exact List.mem_cons_of_mem _ (ih ha)
    · rw [if_neg h] at ha; simp at ha

theorem pred_of_takeWhile {p : Char → Bool} :
    ∀ {l : List Char} {a : Char}, a ∈ l.takeWhile p → p a = true := by
  intro l
  induction l with
  | nil => intro a ha; simp at ha
  | cons c cs ih =>
    intro a ha
    rw [List.takeWhile_cons] at ha
    by_cases h : p c
    · rw [if_pos h] at ha
      rcases List.mem_cons.mp ha with rfl | ha
      · exact h
      · exact ih ha
    · rw [if_neg h] at ha; simp at ha

/-- Everything in a run found by `firstRunOf` comes from the input and
satisfies the predicate. -/
theorem firstRunOf_spec {p : Char → Bool} :
    ∀ {l r : List Char}, firstRunOf p l = some r → ∀ c ∈ r, c ∈ l ∧ p c = true := by
  intro l
  induction l with
  | nil => intro r h; cases h
  | cons x xs ih =>
    intro r h c hc
    unfold firstRunOf at h
    by_cases hx : p x
    · rw [if_pos hx] at h
      injection h with h
      subst h
      rcases List.mem_cons.mp hc with rfl | hc
      · exact ⟨List.mem_cons_self _ _, hx⟩
      · exact ⟨List.mem_cons_of_mem _ (mem_of_takeWhile hc), pred_of_takeWhile hc⟩
    · rw [if_neg hx] at h
      obtain ⟨h1, h2⟩ := ih h c hc
      exact ⟨List.mem_cons_of_mem _ h1, h2⟩

/-- Characters surviving `removeRunGo` come from the input list. -/
theorem removeRunGo_subset (p : Char) (ps : List Char) :
    ∀ (l : List Char) (k : Nat), ∀ c ∈ removeRunGo p ps k l, c ∈ l := by
  intro l
  induction l with
  | nil => intro k c hc; cases k <;> simp [removeRunGo] at hc
  | cons x xs ih =>
    intro k c hc
    cases k with
    | succ k =>
      rw [removeRunGo] at hc
      exact List.mem_cons_of_mem _ (ih k c hc)
    | zero =>
      rw [removeRunGo] at hc
      by_cases hpre : listPrefixOf (p :: ps) (x :: xs) = true
      · rw [if_pos hpre] at hc
        exact List.mem_cons_of_mem _ (ih ps.length c hc)
      · rw [if_neg hpre] at hc
        rcases List.mem_cons.mp hc with rfl | hc
        · exact List.mem_cons_self _ _
        · exact List.mem_cons_of_mem _ (ih 0 c hc)

theorem pyReplaceDel_subset (s pat : String) :
    ∀ c ∈ (pyReplaceDel s pat).data, c ∈ s.data := by
  intro c hc
  unfold pyReplaceDel at hc
  cases hp : pat.data with
  | nil => rw [hp] at hc; exact hc
  | cons p ps =>
    rw [hp] at hc
    exact removeRunGo_subset p ps s.data 0 c hc

/-- `PRICE_RE` extraction yields nothing on a digit-free string. -/
theorem priceFromText_digitfree {s : String} (h : ∀ c ∈ s.data, c.isDigit = false) :
    priceFromText s = none := by
  unfold priceFromText
  cases hr : firstRunOf (fun c => c.isDigit || c == ',') s.data with
  | none => rfl
  | some run =>
    have hcomma : ∀ c ∈ run, c = ',' := by
      intro c hc
      obtain ⟨hmem, hp⟩ := firstRunOf_spec hr c hc
      have hd := h c hmem
      rw [hd] at hp
      simpa using hp
    have hfilter : run.filter (fun c => !(c == ',')) = [] := by
      rw [List.filter_eq_nil_iff]
      intro c hc
      simp [hcomma c hc]
    simp [hfilter]

/-- `parse_price` on a digit-free string value is `None`. -/
theorem parse_price_digitfree {s : String} (h : ∀ c ∈ s.data, c.isDigit = false) :
    parse_price (RawVal.vStr s) = none := by
  unfold parse_price
  apply priceFromText_digitfree
  intro c hc
  exact h c (pyReplaceDel_subset _ _ _
    (pyReplaceDel_subset _ _ _ (pyReplaceDel_subset _ _ _ hc)))

/-- A price parsed out of a string is a cast `Nat`, hence non-negative. -/
theorem priceFromText_nonneg {s : String} {n : Int} (h : priceFromText s = some n) :
    0 ≤ n := by
  unfold priceFromText at h
  cases hr : firstRunOf (fun c => c.isDigit || c == ',') s.data with
  | none => rw [hr] at h; cases h
  | some run =>
    rw [hr] at h
    split at h
    · cases h
    · simp only [] at h
      split at h
      · cases h
      · injection h with h
        rw [← h]
        exact Int.natCast_nonneg _

/-! ## Claim C3 — builder validation behaviour -/

/-- C3, counterexample.  The claim "build raises ValidationError if and only
if no accepted name alias resolves to a non-empty string; with a resolvable
name build never raises" fails in both directions: a raw input with the
resolvable name "X" still raises because `skin_type` carries an integer, and a
raw input whose only name alias is the empty string (no alias resolves to a
non-empty string) builds successfully with `name = ""`. -/
theorem c3_counterexample :
    exOk (parse_raw_product [("name", RawVal.vStr "X"), ("skin_type", RawVal.vInt 5)]) = false ∧
    truthy (nameArg [("name", RawVal.vStr "X"), ("skin_type", RawVal.vInt 5)]) = true ∧
    parse_raw_product [("product", RawVal.vStr "")] = Except.ok
      { id := "product_001", name := "", concentration := none, skin_type := [],
        ingredients := [], benefits := [], usage := none, side_effects := none,
        price_inr := none, raw := [("product", RawVal.vStr "")] } ∧
    truthy (nameArg [("product", RawVal.vStr "")]) = false := by
  refine ⟨by decide, by decide, ?_, by decide⟩
  rfl

/-- C3, amended: `build` raises `ValidationError` if and only if some
consulted field value has a shape its validator rejects — the name alias chain
resolving to null or a list, `id` null or a list, `concentration`/`usage`/
`side_effects` a list, or a list-shaped field an integer.  (A name alias chain
ending in an empty string or a number is accepted, so an unresolvable name
does not by itself imply failure.)  For every well-shaped raw input, `build`
succeeds, and list-shaped fields are never null: an absent list field becomes
`[]`. -/
theorem c3_build_validation (raw : RawMap) :
    (exOk (parse_raw_product raw) = true ↔ wellShapedB raw = true) ∧
    (wellShapedB raw = true → ∃ p : ProductModel, parse_raw_product raw = .ok p) ∧
    (∀ lbl : String, validateListField lbl RawVal.vNone = .ok []) ∧
    (∀ p : ProductModel, parse_raw_product raw = .ok p →
      skinArg raw = RawVal.vNone → p.skin_type = []) := by
  refine ⟨by rw [parse_ok_eq_wellShaped], fun hw => ?_, fun lbl => rfl,
    fun p hp hv => parse_ok_skin hp hv⟩
  have h := parse_ok_eq_wellShaped raw
  rw [hw] at h
  cases hp : parse_raw_product raw with
  | ok p => exact ⟨p, rfl⟩
  | error e => rw [hp] at h; exact absurd h (by simp [exOk])

/-- C3 witness: the amended theorem applied to a concrete well-shaped input. -/
theorem c3_build_validation_w :
    ∃ p : ProductModel, parse_raw_product [("product_name", RawVal.vStr "Z")] = .ok p :=
  (c3_build_validation [("product_name", RawVal.vStr "Z")]).2.1 (by decide)

/-! ## Claim C6 — price parsing -/

/-- C6: price parsing maps `"₹699"` to 699, `"1,299"` to 1299 and
`"Rs. 2,499"` to 2499; a raw input carrying no price field yields a record
price of `None`, and a price string with no digits at all parses to `None`.
The string parses are stated both for the validator and through `build` with
the `"price"` key, the channel the pipeline feeds it by. -/
theorem c6_price_parsing :
    parse_price (RawVal.vStr "₹699") = some 699 ∧
    parse_price (RawVal.vStr "1,299") = some 1299 ∧
    parse_price (RawVal.vStr "Rs. 2,499") = some 2499 ∧
    (∀ p : ProductModel,
      parse_raw_product [("name", RawVal.vStr "P"), ("price", RawVal.vStr "₹699")] = .ok p →
      p.price_inr = some 699) ∧
    (∀ raw : RawMap, rawHasKey raw "price" = false → rawHasKey raw "price_inr" = false →
      ∀ p : ProductModel, parse_raw_product raw = .ok p → p.price_inr = none) ∧
    (∀ s : String, (∀ c ∈ s.data, c.isDigit = false) →
      parse_price (RawVal.vStr s) = none) := by
  refine ⟨by decide, by decide, by decide, fun p hp => ?_, fun raw h1 h2 p hp => ?_,
    fun s hs => parse_price_digitfree hs⟩
  · rw [parse_ok_price hp]; decide
  · rw [parse_ok_price hp]
    have hv : priceArg raw = RawVal.vNone := by simp [priceArg, h1, h2]
    rw [hv]
    rfl

/-- C6 witness: the universal parts evaluated at concrete inputs. -/
theorem c6_price_parsing_w :
    (∀ p : ProductModel,
      parse_raw_product [("name", RawVal.vStr "P"), ("price", RawVal.vStr "₹699")] = .ok p →
      p.price_inr = some 699) ∧
    parse_price (RawVal.vStr "no digits here") = none := by
  refine ⟨c6_price_parsing.2.2.2.1, ?_⟩
  exact c6_price_parsing.2.2.2.2.2 "no digits here" (by decide)

/-! ## Claim C9 — price field shape -/

/-- C9, counterexample.  The claim "the record price is either a non-negative
integer or absent" fails: an integer raw price is passed through unchanged,
including a negative one. -/
theorem c9_counterexample :
    (∀ p : ProductModel,
      parse_raw_product [("name", RawVal.vStr "X"), ("price", RawVal.vInt (-5))] = .ok p →
      p.price_inr = some (-5)) ∧
    exOk (parse_raw_product [("name", RawVal.vStr "X"), ("price", RawVal.vInt (-5))]) = true ∧
    ((-5 : Int) < 0) := by
  refine ⟨fun p hp => ?_, by decide, by decide⟩
  rw [parse_ok_price hp]; decide

/-- C9, amended: the record price is always an integer or absent — never a
non-numeric value — and it is non-negative whenever it was parsed out of a
string; a negative value can only arise by passing a negative integer directly
in the raw `price`/`price_inr` field, which the validator returns unchanged. -/
theorem c9_price_shape (raw : RawMap) (p : ProductModel)
    (h : parse_raw_product raw = .ok p) :
    p.price_inr = none ∨
    ∃ n : Int, p.price_inr = some n ∧ (0 ≤ n ∨ priceArg raw = RawVal.vInt n) := by
  have hp := parse_ok_price h
  cases hv : priceArg raw with
  | vNone => left; rw [hp, hv]; rfl
  | vInt n => right; exact ⟨n, by rw [hp, hv]; rfl, Or.inr rfl⟩
  | vList l => left; rw [hp, hv]; rfl
  | vStr s =>
    rw [hv] at hp
    cases hr : parse_price (RawVal.vStr s) with
    | none => left; rw [hp, hr]
    | some n =>
      right
      refine ⟨n, by rw [hp, hr], Or.inl ?_⟩
      unfold parse_price at hr
      exact priceFromText_nonneg hr

/-- C9 witness: the amended theorem at a concrete successful build. -/
theorem c9_price_shape_w :
    let e := parse_raw_product [("name", RawVal.vStr "P"), ("price", RawVal.vStr "₹699")]
    ∀ p : ProductModel, e = .ok p →
      p.price_inr = none ∨
      ∃ n : Int, p.price_inr = some n ∧
        (0 ≤ n ∨ priceArg [("name", RawVal.vStr "P"), ("price", RawVal.vStr "₹699")] = RawVal.vInt n) :=
  fun p hp => c9_price_shape _ p hp

/-! ## Claim C4 — classifier totality, order, determinism -/

/-- C4: `classify_question` always returns one of the six fixed intents; the
keyword rules fire in exactly the priority order usage → other(storage/
shelf-life/comparison) → value → ingredients → safety → overview, with
unmatched text falling to `other`; and the classifier is a deterministic
function of its input. -/
theorem c4_classifier_total_ordered (q : String) :
    (classify_question q = "usage" ∨ classify_question q = "ingredients" ∨
     classify_question q = "safety" ∨ classify_question q = "value" ∨
     classify_question q = "overview" ∨ classify_question q = "other") ∧
    (anyKey usageKeys (pyLower q) = true → classify_question q = "usage") ∧
    (anyKey usageKeys (pyLower q) = false →
      anyKey storageCompareKeys (pyLower q) = true → classify_question q = "other") ∧
    (anyKey usageKeys (pyLower q) = false → anyKey storageCompareKeys (pyLower q) = false →
      anyKey valueKeys (pyLower q) = true → classify_question q = "value") ∧
    (anyKey usageKeys (pyLower q) = false → anyKey storageCompareKeys (pyLower q) = false →
      anyKey valueKeys (pyLower q) = false →
      anyKey ingredientKeys (pyLower q) = true → classify_question q = "ingredients") ∧
    (anyKey usageKeys (pyLower q) = false → anyKey storageCompareKeys (pyLower q) = false →
      anyKey valueKeys (pyLower q) = false → anyKey ingredientKeys (pyLower q) = false →
      anyKey safetyKeys (pyLower q) = true → classify_question q = "safety") ∧
    (anyKey usageKeys (pyLower q) = false → anyKey storageCompareKeys (pyLower q) = false →
      anyKey valueKeys (pyLower q) = false → anyKey ingredientKeys (pyLower q) = false →
      anyKey safetyKeys (pyLower q) = false →
      anyKey overviewKeys (pyLower q) = true → classify_question q = "overview") ∧
    (anyKey usageKeys (pyLower q) = false → anyKey storageCompareKeys (pyLower q) = false →
      anyKey valueKeys (pyLower q) = false → anyKey ingredientKeys (pyLower q) = false →
      anyKey safetyKeys (pyLower q) = false → anyKey overviewKeys (pyLower q) = false →
      classify_question q = "other") ∧
    (∀ r : String, q = r → classify_question q = classify_question r) := by
  refine ⟨?_, ?_, ?_, ?_, ?_, ?_, ?_, ?_, fun r h => by rw [h]⟩ <;>
    (try intros) <;>
    by_cases h1 : anyKey usageKeys (pyLower q) = true <;>
    by_cases h2 : anyKey storageCompareKeys (pyLower q) = true <;>
    by_cases h3 : anyKey valueKeys (pyLower q) = true <;>
    by_cases h4 : anyKey ingredientKeys (pyLower q) = true <;>
    by_cases h5 : anyKey safetyKeys (pyLower q) = true <;>
    by_cases h6 : anyKey overviewKeys (pyLower q) = true <;>
    simp_all [classify_question]

/-- C4 witness: one concrete question per rule tier. -/
theorem c4_classifier_total_ordered_w :
    classify_question "How do I use this product?" = "usage" ∧
    classify_question "How should it be stored?" = "other" ∧
    classify_question "What is the price?" = "value" ∧
    classify_question "Which ingredients are inside?" = "ingredients" ∧
    classify_question "Is it fine for sensitive skin?" = "safety" ∧
    classify_question "What is this product?" = "overview" ∧
    classify_question "zzz" = "other" := by
  refine ⟨?_, ?_, ?_, ?_, ?_, ?_, ?_⟩
  · exact (c4_classifier_total_ordered "How do I use this product?").2.1 (by decide)
  · exact (c4_classifier_total_ordered "How should it be stored?").2.2.1 (by decide) (by decide)
  · exact (c4_classifier_total_ordered "What is the price?").2.2.2.1
      (by decide) (by decide) (by decide)
  · exact (c4_classifier_total_ordered "Which ingredients are inside?").2.2.2.2.1
      (by decide) (by decide) (by decide) (by decide)
  · exact (c4_classifier_total_ordered "Is it fine for sensitive skin?").2.2.2.2.2.1
      (by decide) (by decide) (by decide) (by decide) (by decide)
  · exact (c4_classifier_total_ordered "What is this product?").2.2.2.2.2.2.1
      (by decide) (by decide) (by decide) (by decide) (by decide) (by decide)
  · exact (c4_classifier_total_ordered "zzz").2.2.2.2.2.2.2.1
      (by decide) (by decide) (by decide) (by decide) (by decide) (by decide)

/-! ## Claim C10 — FAQ item flow -/

theorem faq_foldl_acc (p : ProductModel) (qs : List QItem) (acc : List FaqItem) :
    qs.foldl (faqStep p) acc =
      acc ++ (qs.filter (fun q => !(qEffText q == ""))).map (faqMk p) := by
  induction qs generalizing acc with
  | nil => simp
  | cons q qs ih =>
    rw [List.foldl_cons, List.filter_cons]
    by_cases h : qEffText q = ""
    · simp only [h]
      have hstep : faqStep p acc q = acc := by simp [faqStep, h]
      rw [hstep, ih]
      simp
    · have hb : (qEffText q == "") = false := by simp [h]
      rw [hb]
      have hstep : faqStep p acc q = acc ++ [faqMk p q] := by
        simp [faqStep, faqMk, hb]
      rw [hstep, ih]
      simp

/-- C10: the FAQ block reads each item's `"text"` key and falls back to
`"question"` when that is missing or empty; an item with a non-empty
`"question"` and no `"text"` still receives exactly one answer; items where
both are missing or empty are silently skipped; the surviving answers keep
the input order (the output is exactly the order-preserving map over the
filtered items); and no adapter means `llm_used = false`. -/
theorem c10_faq_item_flow (p : ProductModel) (qs : List QItem) :
    (faq_run_block p qs).faq_items =
      (qs.filter (fun q => !(qEffText q == ""))).map (faqMk p) ∧
    (∀ t : String, ¬ t = "" →
      qEffText { text := none, question := some t } = t ∧
      faq_run_block p [{ text := none, question := some t }] =
        { faq_items := [faqMk p { text := none, question := some t }], llm_used := false }) ∧
    (∀ q : QItem, qEffText q = "" →
      faq_run_block p (qs ++ [q]) = faq_run_block p qs) ∧
    (faq_run_block p qs).llm_used = false := by
  refine ⟨by simpa using faq_foldl_acc p qs [], fun t ht => ⟨?_, ?_⟩, fun q hq => ?_, rfl⟩
  · simp [qEffText, ht]
  · have he : ¬ qEffText { text := none, question := some t } = "" := by
      simp [qEffText, ht]
    simp [faq_run_block, faqStep, faqMk, he]
  · unfold faq_run_block
    rw [List.foldl_append]
    rw [List.foldl_cons, List.foldl_nil]
    have hstep : ∀ acc, faqStep p acc q = acc := by
      intro acc; simp [faqStep, hq]
    rw [hstep]

/-- A concrete record for witnesses (the spec's end-to-end example). -/
def pFaqW : ProductModel :=
  { id := "product_001", name := "GlowBoost Vitamin C Serum",
    concentration := some "10% Vitamin C", skin_type := ["Oily"],
    ingredients := ["Vitamin C", "Hyaluronic Acid"], benefits := ["Brightening"],
    usage := some "Apply 2-3 drops in the morning", side_effects := some "Mild tingling",
    price_inr := some 699, raw := [] }

/-- C10 witness: a concrete batch exercising the fallback, the skip and the
order. -/
theorem c10_faq_item_flow_w :
    qEffText { text := none, question := some "How do I use it?" } = "How do I use it?" ∧
    (faq_run_block pFaqW
      [{ text := none, question := some "How do I use it?" },
       { text := some "", question := some "" }]).faq_items =
      [faqMk pFaqW { text := none, question := some "How do I use it?" }] := by
  constructor
  · exact ((c10_faq_item_flow pFaqW []).2.1 "How do I use it?" (by decide)).1
  · rw [(c10_faq_item_flow pFaqW
      [{ text := none, question := some "How do I use it?" },
       { text := some "", question := some "" }]).1]
    decide

/-! ## Claim C2 — paraphrase gate rules -/

/-- C2, counterexample.  The claim requires rejecting any candidate whose
2+-digit number differs from the known price, and rejecting every candidate
containing a denylisted word.  Both fail: with price 699, the candidate
"Costs 1699 rupees" contains the 2+-digit number 1699 ≠ 699 yet is accepted,
because the gate only tests whether the digits "699" occur as a substring;
and "FDA approved formula" contains the denylisted word FDA as a whole word
yet is accepted, because the `\bFDA\b` pattern is searched case-sensitively
inside the lower-cased candidate, which never contains "FDA". -/
theorem c2_counterexample :
    pFaqW.price_inr = some 699 ∧
    findTwoPlusRuns (pyReplaceDel "Costs 1699 rupees" ",") = ["1699"] ∧
    ¬ ("1699" = "699") ∧
    validate_paraphrase_llm "The price is ₹699." "Costs 1699 rupees" pFaqW = true ∧
    validate_paraphrase_ollama "The price is ₹699." "Costs 1699 rupees" pFaqW = true ∧
    containsWordB "FDA approved formula" "FDA" = true ∧
    validate_paraphrase_llm "orig" "FDA approved formula" pFaqW = true ∧
    validate_paraphrase_ollama "orig" "FDA approved formula" pFaqW = true := by decide

/-- C2, amended: with a truthy record price, both gates reject any candidate
containing a 2+-digit run (after comma removal) in which the decimal string of
the price does not occur as a substring — a different number that merely
contains the price's digits (such as 1699 for 699) is accepted; and both
gates reject every candidate containing one of the lower-case denylist words
clinical, study, proven, dermatologist, guarantee, guaranteed as a whole word
("FDA" never matches, since the pattern is searched case-sensitively in the
lower-cased text). -/
theorem c2_gate_rules (original paraphrase : String) (pf : ProductModel) :
    (∀ n : Int, pf.price_inr = some n → ¬ n = 0 →
      ¬ findTwoPlusRuns (pyReplaceDel paraphrase ",") = [] →
      strContains paraphrase (toString n) = false →
      validate_paraphrase_llm original paraphrase pf = false ∧
      validate_paraphrase_ollama original paraphrase pf = false) ∧
    (∀ w ∈ (["clinical", "study", "proven", "dermatologist", "guarantee",
             "guaranteed"] : List String),
      containsWordB (pyLower paraphrase) w = true →
      validate_paraphrase_llm original paraphrase pf = false ∧
      validate_paraphrase_ollama original paraphrase pf = false) := by
  constructor
  · intro n hn hnz hruns hsub
    have hfail : priceGateFails paraphrase pf = true := by
      simp [priceGateFails, hn, hnz, hruns, hsub]
    constructor
    · unfold validate_paraphrase_llm
      split_ifs <;> simp_all
    · unfold validate_paraphrase_ollama
      split_ifs <;> simp_all
  · intro w hw hcw
    have hb : containsBlacklisted paraphrase = true := by
      unfold containsBlacklisted
      refine List.any_eq_true.mpr ⟨w, ?_, hcw⟩
      fin_cases hw <;> decide
    constructor
    · unfold validate_paraphrase_llm
      split_ifs <;> simp_all
    · unfold validate_paraphrase_ollama
      split_ifs <;> simp_all

/-- C2 witness: both amended rules at concrete rejecting inputs. -/
theorem c2_gate_rules_w :
    validate_paraphrase_llm "orig" "Sells at 123 now" pFaqW = false ∧
    validate_paraphrase_ollama "orig" "purely clinical data" pFaqW = false := by
  constructor
  · exact ((c2_gate_rules "orig" "Sells at 123 now" pFaqW).1 699 rfl (by decide)
      (by decide) (by decide)).1
  · exact ((c2_gate_rules "orig" "purely clinical data" pFaqW).2 "clinical" (by decide)
      (by decide)).2

/-! ## Rounding lemmas shared by the compare-block claims -/

theorem pyRoundQ_intCast (n : ℤ) : pyRoundQ (n : ℚ) = n := by
  norm_num [pyRoundQ, Int.floor_intCast]

theorem pyRoundScaled_zero (k : ℕ) : pyRoundScaled k 0 = 0 := by
  unfold pyRoundScaled
  have h : ((0 : ℚ) * k) = ((0 : ℤ) : ℚ) := by norm_num
  rw [h, pyRoundQ_intCast]
  norm_num

theorem pyRoundScaled_one : pyRoundScaled 1000 1 = 1 := by
  unfold pyRoundScaled
  have h : ((1 : ℚ) * (1000 : ℕ)) = ((1000 : ℤ) : ℚ) := by norm_num
  rw [h, pyRoundQ_intCast]
  norm_num

/-! ## Claim C5 — comparison determinism -/

/-- A concrete record (no explicit comparator) for compare-block witnesses. -/
def cmpGlow : ProductD :=
  { id := "product_001", name := "GlowBoost Vitamin C Serum",
    concentration := some "10% Vitamin C", skin_type := ["Oily"],
    ingredients := ["Vitamin C", "Hyaluronic Acid"], benefits := ["Brightening"],
    usage := none, side_effects := none, price_inr := some 699, rawComparator := none }

/-- C5: on a record with no explicit comparator, two runs of `compare` over the
identical record synthesize byte-identical comparator fields, and the table
choices of the synthesizer (id suffix, concentration, skin-type group, and the
index metadata covering the ingredient/benefit swaps and the price multiplier)
are a pure function of the record identifier through the stable md5-derived
hash: records sharing an id share all choices. -/
theorem c5_compare_determinism :
    (∀ a b : ProductD, a = b → a.rawComparator = none →
      (compare_run_block a).product_b = (compare_run_block b).product_b) ∧
    (∀ a b : ProductD, a.id = b.id →
      (deterministic_variant a).id = (deterministic_variant b).id ∧
      (deterministic_variant a).concentration = (deterministic_variant b).concentration ∧
      (deterministic_variant a).skin_type = (deterministic_variant b).skin_type ∧
      (deterministic_variant a).metadata = (deterministic_variant b).metadata) := by
  constructor
  · intro a b h _
    rw [h]
  · intro a b h
    refine ⟨?_, ?_, ?_, ?_⟩ <;> simp [deterministic_variant, h]

/-- C5 witness: the theorem applied to a concrete record. -/
theorem c5_compare_determinism_w :
    (compare_run_block cmpGlow).product_b = (compare_run_block cmpGlow).product_b ∧
    (deterministic_variant cmpGlow).metadata = (deterministic_variant cmpGlow).metadata :=
  ⟨c5_compare_determinism.1 cmpGlow cmpGlow rfl rfl,
   (c5_compare_determinism.2 cmpGlow cmpGlow rfl).2.2.2⟩

/-! ## Claim C8 — synthesized comparator price -/

/-- A record with a present price of zero. -/
def cmpZero : ProductD :=
  { id := "product_001", name := "Freebie", concentration := none, skin_type := [],
    ingredients := [], benefits := [], usage := none, side_effects := none,
    price_inr := some 0, rawComparator := none }

/-- C8, counterexample.  The claim "the comparator's price is absent exactly
when the source price is absent" fails at a present source price of 0: the
synthesizer computes `price_a = product_a.get("price_inr") or 0` and emits
`None` whenever that value equals 0, so a zero price — present on the source
record — yields an absent comparator price. -/
theorem c8_counterexample :
    cmpZero.price_inr = some 0 ∧
    (deterministic_variant cmpZero).price_inr = none ∧
    (compare_run_block cmpZero).product_b.price_inr = none := by decide

/-- C8, amended: the comparator price is absent exactly when the source price
is absent **or zero** (Python falsy); otherwise it equals
`round(source_price × multiplier)` (round half to even, the multiplier taken
from the fixed table [0.8, 1.1, 1.25, 1.5] at the md5-derived index); in
particular a source price of 699 always yields one of 559, 769, 874, 1048. -/
theorem c8_variant_price (a : ProductD) :
    (a.price_inr.getD 0 = 0 → (deterministic_variant a).price_inr = none) ∧
    (∀ n : Int, a.price_inr = some n → ¬ n = 0 →
      (deterministic_variant a).price_inr =
        some (pyRoundMul n
          (price_mults.getD ((md5num a.id >>> 12) % price_mults.length) (0, 1)))) ∧
    (a.price_inr = some 699 →
      (deterministic_variant a).price_inr = some 559 ∨
      (deterministic_variant a).price_inr = some 769 ∨
      (deterministic_variant a).price_inr = some 874 ∨
      (deterministic_variant a).price_inr = some 1048) := by
  have hmain : ∀ n : Int, a.price_inr = some n → ¬ n = 0 →
      (deterministic_variant a).price_inr =
        some (pyRoundMul n
          (price_mults.getD ((md5num a.id >>> 12) % price_mults.length) (0, 1))) := by
    intro n hn hnz
    simp [deterministic_variant, hn, hnz]
  refine ⟨fun h => by simp [deterministic_variant, h], hmain, fun h => ?_⟩
  have hv := hmain 699 h (by decide)
  rw [hv]
  have hlt : (md5num a.id >>> 12) % price_mults.length < 4 := by
    have hm := Nat.mod_lt (md5num a.id >>> 12) (y := price_mults.length) (by decide)
    simpa [price_mults] using hm
  generalize (md5num a.id >>> 12) % price_mults.length = i at hlt ⊢
  interval_cases i <;> decide

/-- C8 witness: the amended theorem at the concrete record with price 699. -/
theorem c8_variant_price_w :
    (deterministic_variant cmpGlow).price_inr = some 559 ∨
    (deterministic_variant cmpGlow).price_inr = some 769 ∨
    (deterministic_variant cmpGlow).price_inr = some 874 ∨
    (deterministic_variant cmpGlow).price_inr = some 1048 :=
  (c8_variant_price cmpGlow).2.2 rfl

/-! ## Claim C7 — overlap scoring boundary -/

/-- Identical non-empty normalized sets score 1 under the code's
`len(shared) / max(1, len(union))` formula. -/
theorem overlap_identical {x y : List String} (h : x.toFinset = y.toFinset)
    (hne : x.toFinset ≠ ∅) : overlapScore x y = 1 := by
  unfold overlapScore
  rw [List.toFinset_append, ← h, Finset.inter_self, Finset.union_self]
  have hpos : 0 < x.toFinset.card :=
    Finset.card_pos.mpr (Finset.nonempty_iff_ne_empty.mpr hne)
  rw [max_eq_right hpos]
  have hz : (x.toFinset.card : ℚ) ≠ 0 := by
    exact_mod_cast Nat.pos_iff_ne_zero.mp hpos
  exact div_self hz

/-- An explicitly supplied comparator with empty ingredient and benefit lists. -/
def cmpEmptyB : BDict :=
  { id := some "b1", name := some "B", concentration := none, skin_type := none,
    ingredients := some [], benefits := some [], usage := none, side_effects := none,
    price_inr := none, metadata := none }

def cmpEmptyA : ProductD :=
  { id := "a1", name := "A", concentration := none, skin_type := [], ingredients := [],
    benefits := [], usage := none, side_effects := none, price_inr := none,
    rawComparator := some cmpEmptyB }

/-- C7, counterexample.  The claim "identical normalized ingredient and
benefit sets give overall == 1.0" fails when the identical sets are empty: the
formula's own empty-union clause makes both overlaps 0, so overall is 0.0,
not 1.0. -/
theorem c7_counterexample :
    (normalizeL cmpEmptyA.ingredients).toFinset =
      (normalizeL (cmpEmptyB.ingredients.getD [])).toFinset ∧
    (normalizeL cmpEmptyA.benefits).toFinset =
      (normalizeL (cmpEmptyB.benefits.getD [])).toFinset ∧
    (compare_run_block cmpEmptyA).overall = 0 ∧
    ¬ (compare_run_block cmpEmptyA).overall = 1 := by
  have hov : (compare_run_block cmpEmptyA).overall = pyRoundScaled 1000 ((0 + 0) / 2) := by
    show pyRoundScaled 1000
      ((overlapScore (normalizeL cmpEmptyA.ingredients)
          (normalizeL ((resolvedComparator cmpEmptyA).ingredients.getD [])) +
        overlapScore (normalizeL cmpEmptyA.benefits)
          (normalizeL ((resolvedComparator cmpEmptyA).benefits.getD []))) / 2) =
      pyRoundScaled 1000 ((0 + 0) / 2)
    norm_num [overlapScore, normalizeL, resolvedComparator, ensureFields, cmpEmptyA, cmpEmptyB]
  have hz : ((0 : ℚ) + 0) / 2 = 0 := by norm_num
  refine ⟨by decide, by decide, ?_, ?_⟩
  · rw [hov, hz, pyRoundScaled_zero]
  · rw [hov, hz, pyRoundScaled_zero]
    norm_num

/-- C7, amended: whenever the comparator `compare` scores against — whether it
was explicitly supplied in the carried raw input or deterministically
synthesized — has a normalized (trimmed, lowercased) ingredient set identical
to the source's **and non-empty**, and likewise for benefits, the result has
ingredient_overlap = 1, benefit_overlap = 1 and
overall = round((1+1)/2, 3) = 1.0; the overlap formula is
`|shared| / max(1, |union|)`, which gives 0 (not 1) when the union is
empty. -/
theorem c7_overlap_scoring (a : ProductD)
    (hi : (normalizeL a.ingredients).toFinset =
      (normalizeL ((resolvedComparator a).ingredients.getD [])).toFinset)
    (hine : (normalizeL a.ingredients).toFinset ≠ ∅)
    (hben : (normalizeL a.benefits).toFinset =
      (normalizeL ((resolvedComparator a).benefits.getD [])).toFinset)
    (hbne : (normalizeL a.benefits).toFinset ≠ ∅) :
    (compare_run_block a).ingredient_overlap = 1 ∧
    (compare_run_block a).benefit_overlap = 1 ∧
    (compare_run_block a).overall = 1 := by
  have h1 : overlapScore (normalizeL a.ingredients)
      (normalizeL ((resolvedComparator a).ingredients.getD [])) = 1 :=
    overlap_identical hi hine
  have h2 : overlapScore (normalizeL a.benefits)
      (normalizeL ((resolvedComparator a).benefits.getD [])) = 1 :=
    overlap_identical hben hbne
  refine ⟨h1, h2, ?_⟩
  show pyRoundScaled 1000
    ((overlapScore (normalizeL a.ingredients)
        (normalizeL ((resolvedComparator a).ingredients.getD [])) +
      overlapScore (normalizeL a.benefits)
        (normalizeL ((resolvedComparator a).benefits.getD []))) / 2) = 1
  rw [h1, h2]
  have ha : ((1 : ℚ) + 1) / 2 = 1 := by norm_num
  rw [ha, pyRoundScaled_one]

/-- The spec's "highly similar" sample pair: identical ingredient and benefit
lists on both sides. -/
def cmpSameB : BDict :=
  { id := some "b", name := some "B", concentration := none, skin_type := none,
    ingredients := some ["x", "y", "z"], benefits := some ["p", "q"], usage := none,
    side_effects := none, price_inr := some 600, metadata := none }

def cmpSameA : ProductD :=
  { id := "a", name := "A", concentration := none, skin_type := [],
    ingredients := ["x", "y", "z"], benefits := ["p", "q"], usage := none,
    side_effects := none, price_inr := some 500, rawComparator := some cmpSameB }

/-- A record with no explicit comparator whose md5-selected synthesized
comparator ends up with identical normalized ingredient and benefit sets
(id "p7" selects the ["Squalane", "Glycerin"] swap and the
["Brightening", "Even Tone"] benefit pair). -/
def cmpP7 : ProductD :=
  { id := "p7", name := "P7", concentration := none, skin_type := [],
    ingredients := ["Squalane", "Glycerin"], benefits := ["Brightening", "Even Tone"],
    usage := none, side_effects := none, price_inr := none, rawComparator := none }

set_option maxRecDepth 8000 in
set_option maxHeartbeats 1600000 in
/-- C7 witness: the amended theorem on concrete identical non-empty pairs,
once with a supplied comparator and once with a synthesized one. -/
theorem c7_overlap_scoring_w :
    (compare_run_block cmpSameA).overall = 1 ∧
    (compare_run_block cmpP7).overall = 1 :=
  ⟨(c7_overlap_scoring cmpSameA (by decide) (by decide) (by decide) (by decide)).2.2,
   (c7_overlap_scoring cmpP7 (by decide) (by decide) (by decide) (by decide)).2.2⟩

/-! ## Claim C1 — answer provenance -/

def hasDigit (s : String) : Bool := s.data.any Char.isDigit

/-- The record-field texts an interpolated fragment may carry: the name, the
optional string fields, the comma-joins of the list fields, and the decimal
text of the price. -/
def isFieldText (p : ProductModel) (s : String) : Prop :=
  s = p.name ∨ s = optVal p.concentration ∨ s = optVal p.usage ∨
  s = optVal p.side_effects ∨ s = joinComma p.benefits ∨
  s = joinComma p.ingredients ∨ s = joinComma p.skin_type ∨ s = priceText p

/-- A fragment is grounded when it is a fixed template string containing no
digit, or an interpolated record-field value. -/
def fragOk (p : ProductModel) : Frag → Prop
  | .fx s => hasDigit s = false
  | .fv s => isFieldText p s

theorem fragOk_fx {p : ProductModel} {s : String} (h : hasDigit s = false) :
    fragOk p (.fx s) := h

theorem fragOk_fv {p : ProductModel} {s : String} (h : isFieldText p s) :
    fragOk p (.fv s) := h

/-- A record that nowhere mentions Vitamin C. -/
def recNia : ProductModel :=
  { id := "product_002", name := "Niacinamide Serum",
    concentration := some "10% Niacinamide", skin_type := ["Oily"],
    ingredients := ["Niacinamide"], benefits := ["Soothing"],
    usage := some "Apply at night", side_effects := some "Mild dryness",
    price_inr := some 499, raw := [] }

/-- C1, counterexample.  The claim that generated answers introduce no named
claim absent from the record fails: for a record that nowhere mentions
Vitamin C, the concentration-meaning question (classified `overview`) is
answered with a fixed template asserting something about "the Vitamin C
content" — a named claim traceable to no record field and not a fallback
(the branch requires the concentration to be present). -/
theorem c1_counterexample :
    classify_question "What does the concentration mean?" = "overview" ∧
    strContains
      (generate_answer "overview" "What does the concentration mean?" recNia)
      "Vitamin C" = true ∧
    optTruthy recNia.concentration = true ∧
    strContains recNia.name "Vitamin C" = false ∧
    strContains (optVal recNia.concentration) "Vitamin C" = false ∧
    strContains (optVal recNia.usage) "Vitamin C" = false ∧
    strContains (optVal recNia.side_effects) "Vitamin C" = false ∧
    strContains (joinComma recNia.skin_type) "Vitamin C" = false ∧
    strContains (joinComma recNia.ingredients) "Vitamin C" = false ∧
    strContains (joinComma recNia.benefits) "Vitamin C" = false := by decide

set_option maxHeartbeats 1600000 in
/-- C1, amended: every fragment of every generated answer is either an
interpolated CanonicalRecord field value (name, concentration, usage,
side-effects, a comma-join of a list field, or the price digits) or a fixed
intent-specific template string, and no fixed template string contains a
digit — so no numeric value can be introduced that does not trace to the
record.  Fixed template strings may however introduce fixed named claims
(the words "Vitamin C" appear in the concentration-meaning and
value-for-money templates regardless of the record). -/
theorem c1_answer_provenance (category q : String) (p : ProductModel) :
    ∀ f ∈ generateAnswerFrags category q p, fragOk p f := by
  intro f hf
  unfold generateAnswerFrags at hf
  split_ifs at hf
  all_goals
    try simp only [List.append_assoc, List.cons_append, List.nil_append] at hf
  all_goals fin_cases hf
  all_goals
    first
      | exact fragOk_fv (Or.inl rfl)
      | exact fragOk_fv (Or.inr (Or.inl rfl))
      | exact fragOk_fv (Or.inr (Or.inr (Or.inl rfl)))
      | exact fragOk_fv (Or.inr (Or.inr (Or.inr (Or.inl rfl))))
      | exact fragOk_fv (Or.inr (Or.inr (Or.inr (Or.inr (Or.inl rfl)))))
      | exact fragOk_fv (Or.inr (Or.inr (Or.inr (Or.inr (Or.inr (Or.inl rfl))))))
      | exact fragOk_fv (Or.inr (Or.inr (Or.inr (Or.inr (Or.inr (Or.inr (Or.inl rfl)))))))
      | exact fragOk_fv (Or.inr (Or.inr (Or.inr (Or.inr (Or.inr (Or.inr (Or.inr rfl)))))))
      | (apply fragOk_fx; decide)

/-- C1 witness: the amended theorem at a concrete record, question and
fragment. -/
theorem c1_answer_provenance_w :
    fragOk recNia (Frag.fv "Apply at night") :=
  c1_answer_provenance "usage" "How do I use it?" recNia
    (Frag.fv "Apply at night") (by decide)
